import Mathlib

/-!
Shallow embedding of the multi-platform job aggregation and application layer
of the CareerCatalyst repository.

The embedding covers:
* the per-adapter normalizers (`mapJobToSchema` of the Indeed and LinkedIn
  services),
* the credential validity predicates (`hasValidCredentials`),
* the adapter search / detail-fetch operations with the network modelled as
  an explicit `HttpResult` oracle (an axios call either yields a decoded
  response or throws, which the services catch),
* the adapter registry (`JobServiceFactory`),
* the persistence collaborator (`storage.ts` / `database-storage.ts`
  operations used by the job-platform route handlers), and
* the search-handler dedup loop and the apply-handler workflow from
  `server/routes.ts`.

JavaScript truthiness (`x || d`, `x ? a : b`) on optional strings and
numbers is embedded explicitly: `none`, the empty string and the number 0
are falsy.
-/

namespace CareerCatalyst

/-- JS `String.prototype.toLowerCase` on the ASCII platform identifiers:
lower-case every character. -/
def toLowerStr (s : String) : String := ⟨s.data.map Char.toLower⟩

/-- JS `v || d` for an optional string: `undefined`/`null` and `""` are falsy. -/
def strOr (v : Option String) (d : String) : String :=
  match v with
  | some s => if s = "" then d else s
  | none => d

/-- JS `v || null` for an optional string. -/
def strOrNull (v : Option String) : Option String :=
  match v with
  | some s => if s = "" then none else some s
  | none => none

/-- JS `v || d` for an optional number: `undefined`/`null` and `0` are falsy. -/
def natOr (v : Option Nat) (d : Nat) : Nat :=
  match v with
  | some n => if n = 0 then d else n
  | none => d

/-- JS template-string interpolation of a possibly-undefined value:
`undefined` prints as the literal string "undefined". -/
def interpStr : Option String → String
  | some s => s
  | none => "undefined"

/-- JS `v ? v : null` for an optional numeric timestamp (0 is falsy). -/
def optNatTruthy : Option Nat → Option Nat
  | some n => if n = 0 then none else some n
  | none => none

/-- JS `v || null` for an optional boolean (`false` is falsy, so it maps to null). -/
def boolOrNull : Option Bool → Option Bool
  | some true => some true
  | _ => none

/-- Raw Indeed search-result item, as read by `IndeedService.mapJobToSchema`
(fields the mapper touches; absent field = `none`). -/
structure IndeedJobPayload where
  jobkey : Option String
  jobtitle : Option String
  company : Option String
  formattedLocation : Option String
  city : Option String
  snippet : Option String
  formattedRelativeTime : Option String
  url : Option String
  remote : Option Bool
  date : Option Nat
deriving DecidableEq, Repr

/-- The `company` object of a raw LinkedIn job payload. -/
structure LinkedInCompany where
  name : Option String
deriving DecidableEq, Repr

/-- The `location` object of a raw LinkedIn job payload. -/
structure LinkedInLocationObj where
  name : Option String
deriving DecidableEq, Repr

/-- Raw LinkedIn job payload, as read by `LinkedInService.mapJobToSchema`. -/
structure LinkedInJobPayload where
  id : Option String
  title : Option String
  company : Option LinkedInCompany
  locationName : Option String
  location : Option LinkedInLocationObj
  description : Option String
  salary : Option String
  applyUrl : Option String
  url : Option String
  workplaceType : Option String
  postedAt : Option Nat
deriving DecidableEq, Repr

/-- The opaque `details` column: the raw platform payload retained verbatim. -/
inductive RawDetails where
  | indeed (payload : IndeedJobPayload)
  | linkedin (payload : LinkedInJobPayload)
deriving DecidableEq, Repr

/-- Canonical Job Listing row (`jobListings` table of the shared schema).
Timestamps are naturals (milliseconds since epoch). -/
structure JobListing where
  id : Nat
  userId : Nat
  source : String
  externalId : String
  title : String
  company : String
  location : Option String
  description : Option String
  salary : Option String
  url : String
  isRemote : Option Bool
  postedAt : Option Nat
  savedAt : Nat
  applied : Bool
  hidden : Bool
  details : RawDetails
deriving DecidableEq, Repr

/-- `IndeedService.mapJobToSchema`: normalize a raw Indeed payload into the
canonical Job Listing shape.  `now` stands for `Date.now()` / `new Date()`. -/
def mapIndeedJobToSchema (jobData : IndeedJobPayload) (userId : Nat) (now : Nat) : JobListing :=
  { id := 0
    userId := userId
    source := "Indeed"
    externalId := strOr jobData.jobkey ("indeed-" ++ toString now)
    title := strOr jobData.jobtitle "Untitled Position"
    company := strOr jobData.company "Unknown Company"
    location := (strOrNull jobData.formattedLocation).orElse (fun _ => strOrNull jobData.city)
    description := strOrNull jobData.snippet
    salary := strOrNull jobData.formattedRelativeTime
    url := strOr jobData.url ("https://www.indeed.com/viewjob?jk=" ++ interpStr jobData.jobkey)
    isRemote := boolOrNull jobData.remote
    postedAt := optNatTruthy jobData.date
    savedAt := now
    applied := false
    hidden := false
    details := RawDetails.indeed jobData }

/-- `LinkedInService.mapJobToSchema`, location part:
`locationData = jobData.locationName || jobData.location || {}` followed by
`typeof locationData === 'string' ? locationData : locationData.name || null`. -/
def linkedinLocationField (jobData : LinkedInJobPayload) : Option String :=
  match strOrNull jobData.locationName with
  | some s => some s
  | none =>
    match jobData.location with
    | some loc => strOrNull loc.name
    | none => none

/-- `LinkedInService.mapJobToSchema`: normalize a raw LinkedIn payload into
the canonical Job Listing shape. -/
def mapLinkedInJobToSchema (jobData : LinkedInJobPayload) (userId : Nat) (now : Nat) : JobListing :=
  { id := 0
    userId := userId
    source := "LinkedIn"
    externalId := strOr jobData.id ("linkedin-" ++ toString now)
    title := strOr jobData.title "Untitled Position"
    company := strOr (jobData.company.bind (fun c => c.name)) "Unknown Company"
    location := linkedinLocationField jobData
    description := strOrNull jobData.description
    salary := strOrNull jobData.salary
    url := strOr jobData.applyUrl
      (strOr jobData.url ("https://www.linkedin.com/jobs/view/" ++ interpStr jobData.id))
    isRemote := if jobData.workplaceType == some "REMOTE" then some true else none
    postedAt := optNatTruthy jobData.postedAt
    savedAt := now
    applied := false
    hidden := false
    details := RawDetails.linkedin jobData }

/-- LinkedIn credentials (`LinkedInCredentials` interface). -/
structure LinkedInCredentials where
  accessToken : String
  refreshToken : Option String
  expiresAt : Option Nat
deriving DecidableEq, Repr

/-- Indeed credentials (`IndeedCredentials` interface). -/
structure IndeedCredentials where
  publisherId : String
  apiKey : String
  jobseekerId : Option String
deriving DecidableEq, Repr

/-- `LinkedInService.hasValidCredentials`.  The argument is optional to cover
the JS `!credentials` guard; `now` stands for `Date.now()`.  The expiry guard
is `if (credentials.expiresAt && Date.now() > credentials.expiresAt)`, where
a numeric `expiresAt` of 0 is falsy. -/
def linkedinHasValidCredentials (credentials : Option LinkedInCredentials) (now : Nat) : Bool :=
  match credentials with
  | none => false
  | some c =>
    if c.accessToken = "" then false
    else
      match c.expiresAt with
      | some e => if e ≠ 0 ∧ now > e then false else true
      | none => true

/-- `IndeedService.hasValidCredentials`:
`!!(credentials && credentials.publisherId && credentials.apiKey)`. -/
def indeedHasValidCredentials (credentials : Option IndeedCredentials) : Bool :=
  match credentials with
  | none => false
  | some c => if c.publisherId = "" ∨ c.apiKey = "" then false else true

/-- Canonical Search Query as passed by the route handler to the adapters. -/
structure SearchParams where
  keywords : Option (List String)
  locations : Option (List String)
  remote : Bool
  excludeKeywords : Option (List String)
  experience : Option String
  page : Option Nat
  limit : Option Nat
  userId : Nat
deriving DecidableEq, Repr

/-- Result shape of an adapter search. -/
structure SearchResult where
  jobs : List JobListing
  hasMore : Bool
  total : Option Nat
deriving DecidableEq, Repr

/-- Outcome of an axios call: a decoded response, or a thrown error
(network failure, auth rejection, malformed body). -/
inductive HttpResult (α : Type) where
  | ok (response : α)
  | error
deriving DecidableEq, Repr

/-- Decoded body of an Indeed search response, as read by the service. -/
structure IndeedSearchResponse where
  results : Option (List IndeedJobPayload)
  totalResults : Option Nat
deriving DecidableEq, Repr

/-- One entry of `paging.links` in a LinkedIn search response. -/
structure LinkedInPagingLink where
  rel : Option String
deriving DecidableEq, Repr

/-- The `paging` object of a LinkedIn search response. -/
structure LinkedInPaging where
  total : Option Nat
  links : Option (List LinkedInPagingLink)
deriving DecidableEq, Repr

/-- Decoded body of a LinkedIn search response, as read by the service. -/
structure LinkedInSearchResponse where
  elements : Option (List LinkedInJobPayload)
  paging : Option LinkedInPaging
deriving DecidableEq, Repr

/-- The URLSearchParams built by `IndeedService.searchJobs` (key/value pairs
in append order). -/
def indeedBuildSearchParams (credentials : IndeedCredentials) (params : SearchParams) :
    List (String × String) :=
  let base := [("publisher", credentials.publisherId), ("v", "2"), ("format", "json")]
  let withQ := base ++ (match params.keywords with
    | some ks => if ks.length > 0 then [("q", String.intercalate " " ks)] else []
    | none => [])
  let withL := withQ ++ (match params.locations with
    | some ls => if ls.length > 0 then [("l", ls.headD "")] else []
    | none => [])
  let withR := withL ++ (if params.remote then [("remotejob", "1")] else [])
  let page := natOr params.page 0
  let limit := natOr params.limit 20
  withR ++ [("start", toString (page * limit)), ("limit", toString limit)]

/-- The URLSearchParams built by `LinkedInService.searchJobs`. -/
def linkedinBuildSearchParams (params : SearchParams) : List (String × String) :=
  let p1 := (match params.keywords with
    | some ks => if ks.length > 0 then [("keywords", String.intercalate " " ks)] else []
    | none => [])
  let p2 := p1 ++ (match params.locations with
    | some ls => if ls.length > 0 then [("location", String.intercalate " " ls)] else []
    | none => [])
  let p3 := p2 ++ (if params.remote then [("remoteFilter", "true")] else [])
  let p4 := p3 ++ (match params.experience with
    | some e => if e = "" then [] else [("experience", e)]
    | none => [])
  let page := natOr params.page 0
  let limit := natOr params.limit 20
  p4 ++ [("start", toString (page * limit)), ("count", toString limit)]

/-- `IndeedService.searchJobs`.  The whole body is wrapped in try/catch: an
invalid-credentials throw or an axios throw is caught and degraded to the
empty result `{jobs: [], hasMore: false, total: 0}`. -/
def indeedSearchJobs (credentials : Option IndeedCredentials) (params : SearchParams)
    (http : HttpResult IndeedSearchResponse) (now : Nat) : SearchResult :=
  if ¬ indeedHasValidCredentials credentials then { jobs := [], hasMore := false, total := some 0 }
  else
    match http with
    | .error => { jobs := [], hasMore := false, total := some 0 }
    | .ok data =>
      let page := natOr params.page 0
      let limit := natOr params.limit 20
      let jobs := (data.results.getD []).map (fun j => mapIndeedJobToSchema j params.userId now)
      let total := natOr data.totalResults jobs.length
      { jobs := jobs, hasMore := decide (page * limit + jobs.length < total), total := some total }

/-- `data.paging?.links?.some(link => link.rel === "next") || false`. -/
def linkedinHasMoreOf (data : LinkedInSearchResponse) : Bool :=
  match data.paging with
  | none => false
  | some paging =>
    match paging.links with
    | none => false
    | some links => links.any (fun link => link.rel == some "next")

/-- `data.paging?.total || jobs.length`. -/
def linkedinTotalOf (data : LinkedInSearchResponse) (fallback : Nat) : Nat :=
  match data.paging with
  | none => fallback
  | some paging => natOr paging.total fallback

/-- `LinkedInService.searchJobs`, with the same catch-all degradation to the
empty result as the Indeed service. -/
def linkedinSearchJobs (credentials : Option LinkedInCredentials) (params : SearchParams)
    (http : HttpResult LinkedInSearchResponse) (now : Nat) : SearchResult :=
  if ¬ linkedinHasValidCredentials credentials now then
    { jobs := [], hasMore := false, total := some 0 }
  else
    match http with
    | .error => { jobs := [], hasMore := false, total := some 0 }
    | .ok data =>
      let jobs := (data.elements.getD []).map (fun j => mapLinkedInJobToSchema j params.userId now)
      { jobs := jobs, hasMore := linkedinHasMoreOf data, total := some (linkedinTotalOf data jobs.length) }

/-- `IndeedService.getJobDetails`: searches by `jobkeys=externalId`; returns
null when credentials are invalid (throw, caught), when axios throws, or when
the response carries no results.  `userId` models the userId merged into the
credentials by the route handler. -/
def indeedGetJobDetails (credentials : Option IndeedCredentials) (userId : Nat)
    (externalId : String) (http : HttpResult IndeedSearchResponse) (now : Nat) :
    Option JobListing :=
  let _ := externalId
  if ¬ indeedHasValidCredentials credentials then none
  else
    match http with
    | .error => none
    | .ok data =>
      match data.results with
      | none => none
      | some [] => none
      | some (j :: _) => some (mapIndeedJobToSchema j userId now)

/-- `LinkedInService.getJobDetails`: fetches `/jobs/externalId`; returns null
when credentials are invalid (throw, caught) or when axios throws (including
a platform 404). -/
def linkedinGetJobDetails (credentials : Option LinkedInCredentials) (userId : Nat)
    (externalId : String) (http : HttpResult LinkedInJobPayload) (now : Nat) :
    Option JobListing :=
  let _ := externalId
  if ¬ linkedinHasValidCredentials credentials now then none
  else
    match http with
    | .error => none
    | .ok jobData => some (mapLinkedInJobToSchema jobData userId now)

/-- The two built-in platform adapters. -/
inductive Adapter where
  | linkedin
  | indeed
deriving DecidableEq, Repr

/-- Whether the adapter class defines an `applyToJob` method:
`LinkedInService` does, `IndeedService` does not. -/
def Adapter.hasApplyCapability : Adapter → Bool
  | .linkedin => true
  | .indeed => false

/-- The `JobServiceFactory.services` record: a mutable mapping from
lower-cased platform key to adapter instance. -/
structure Registry where
  services : List (String × Adapter)
deriving DecidableEq, Repr

/-- The pre-populated factory record `{ linkedin: ..., indeed: ... }`. -/
def defaultRegistry : Registry :=
  ⟨[("linkedin", Adapter.linkedin), ("indeed", Adapter.indeed)]⟩

/-- `JobServiceFactory.getService`:
`this.services[toLowerStr platformCase()] || null`. -/
def getService (r : Registry) (platform : String) : Option Adapter :=
  (r.services.find? (fun kv => kv.1 == toLowerStr platform)).map (fun kv => kv.2)

/-- `JobServiceFactory.registerService`: assigns under the lower-cased key,
replacing any previous binding. -/
def registerService (r : Registry) (platformKey : String) (service : Adapter) : Registry :=
  ⟨(toLowerStr platformKey, service) :: r.services.filter (fun kv => kv.1 != toLowerStr platformKey)⟩

/-- Application row (`applications` table), restricted to the columns the
apply workflow writes. -/
structure Application where
  id : Nat
  userId : Nat
  role : String
  company : String
  description : Option String
  location : Option String
  status : String
  link : String
  appliedAt : Nat
  createdAt : Nat
deriving DecidableEq, Repr

/-- Aggregate stats row (`stats` table). -/
structure Stat where
  id : Nat
  userId : Nat
  totalApplications : Nat
  interviewRate : Nat
  avgResponseTime : Nat
  aiGeneratedDocs : Nat
deriving DecidableEq, Repr

/-- User row, restricted to the columns the job-platform handlers read. -/
structure User where
  id : Nat
  linkedinCredentials : Option LinkedInCredentials
  indeedCredentials : Option IndeedCredentials
deriving DecidableEq, Repr

/-- The persistence collaborator: tables in insertion order plus the serial
id counters.  Models the storage operations of `database-storage.ts` /
`storage.ts` used by the job-platform handlers. -/
structure Store where
  users : List User
  jobListings : List JobListing
  applications : List Application
  stats : List Stat
  nextListingId : Nat
  nextApplicationId : Nat
deriving DecidableEq, Repr

/-- `storage.getUser`. -/
def Store.getUser (s : Store) (id : Nat) : Option User :=
  s.users.find? (fun u => u.id == id)

/-- `storage.getJobListing`. -/
def Store.getJobListing (s : Store) (id : Nat) : Option JobListing :=
  s.jobListings.find? (fun l => l.id == id)

/-- `storage.getJobListingByExternalId`: the lookup filters on
`userId` and `externalId` only (`source` is not part of the key). -/
def Store.getJobListingByExternalId (s : Store) (userId : Nat) (externalId : String) :
    Option JobListing :=
  s.jobListings.find? (fun l => l.userId == userId && l.externalId == externalId)

/-- `storage.createJobListing`: insert with a fresh serial id and
`savedAt = now`. -/
def Store.createJobListing (s : Store) (jobListing : JobListing) (now : Nat) :
    JobListing × Store :=
  let newListing := { jobListing with id := s.nextListingId, savedAt := now }
  (newListing,
   { s with jobListings := s.jobListings ++ [newListing],
            nextListingId := s.nextListingId + 1 })

/-- `storage.markJobListingAsApplied`: set `applied := true` on the row with
the given id. -/
def Store.markJobListingAsApplied (s : Store) (id : Nat) : Store :=
  { s with jobListings :=
      s.jobListings.map (fun l => if l.id == id then { l with applied := true } else l) }

/-- `storage.createApplication`: insert with a fresh serial id. -/
def Store.createApplication (s : Store) (application : Application) (now : Nat) :
    Application × Store :=
  let newApp := { application with id := s.nextApplicationId, createdAt := now }
  (newApp,
   { s with applications := s.applications ++ [newApp],
            nextApplicationId := s.nextApplicationId + 1 })

/-- `storage.getUserStats`. -/
def Store.getUserStats (s : Store) (userId : Nat) : Option Stat :=
  s.stats.find? (fun st => st.userId == userId)

/-- `storage.updateUserStats` restricted to the one field the apply workflow
updates. -/
def Store.updateUserStats (s : Store) (id : Nat) (totalApplications : Nat) : Store :=
  { s with stats :=
      s.stats.map (fun st =>
        if st.id == id then { st with totalApplications := totalApplications } else st) }

/-- The dedup/save loop of the `job-platform/search` handler: for each job
returned by the adapter, look up an existing row by `(userId, externalId)`;
push the existing row if found, otherwise persist the fresh job and push
the newly created row. -/
def dedupSaveJobs (s : Store) (userId : Nat) (jobs : List JobListing) (now : Nat) :
    List JobListing × Store :=
  match jobs with
  | [] => ([], s)
  | job :: rest =>
    match s.getJobListingByExternalId userId job.externalId with
    | some existingJob =>
      let r := dedupSaveJobs s userId rest now
      (existingJob :: r.1, r.2)
    | none =>
      let saved := s.createJobListing job now
      let r := dedupSaveJobs saved.2 userId rest now
      (saved.1 :: r.1, r.2)

/-- Outcome of the recording step of the apply handler: either the created
Application together with the final store, or a thrown persistence error
(propagated to the handler's single outer catch) with the store as it stood
when the throw happened. -/
inductive RecordOutcome where
  | ok (application : Application) (s : Store)
  | error (s : Store)
deriving DecidableEq, Repr

/-- The store carried by a recording outcome. -/
def RecordOutcome.store : RecordOutcome → Store
  | .ok _ s => s
  | .error s => s

/-- The recording step of the `job-platform/apply` handler, reached only on
adapter-reported success.  The three writes run in sequence with no
individual try/catch: `markJobListingAsApplied`, then `createApplication`,
then the stats lookup/increment.  Each `fail*` flag models the corresponding
storage call throwing (before mutating); a throw aborts the remaining
writes. -/
def recordApply (s : Store) (userId jobId : Nat) (jobListing : JobListing) (now : Nat)
    (failMarkApplied failCreateApplication failStats : Bool) : RecordOutcome :=
  if failMarkApplied then .error s
  else
    let s1 := s.markJobListingAsApplied jobId
    if failCreateApplication then .error s1
    else
      let created := s1.createApplication
        { id := 0
          userId := userId
          role := jobListing.title
          company := jobListing.company
          description := jobListing.description
          location := jobListing.location
          status := "applied"
          link := jobListing.url
          appliedAt := now
          createdAt := 0 } now
      if failStats then .error created.2
      else
        match created.2.getUserStats userId with
        | some st => .ok created.1 (created.2.updateUserStats st.id (st.totalApplications + 1))
        | none => .ok created.1 created.2

/-- The per-platform credentials value read off the user row by the route
handlers. -/
inductive PlatformCredentials where
  | linkedin (c : LinkedInCredentials)
  | indeed (c : IndeedCredentials)
deriving DecidableEq, Repr

/-- `service.hasValidCredentials(credentialsWithUserId)` as dispatched by the
apply handler.  A mismatched shape (duck-typed field probing finds the
required fields absent) yields false. -/
def Adapter.hasValidCredentials (a : Adapter) (credentials : PlatformCredentials) (now : Nat) :
    Bool :=
  match a, credentials with
  | .linkedin, .linkedin c => linkedinHasValidCredentials (some c) now
  | .indeed, .indeed c => indeedHasValidCredentials (some c)
  | .linkedin, .indeed _ => false
  | .indeed, .linkedin _ => false

/-- HTTP response of the `job-platform/apply` handler. -/
inductive ApplyResponse where
  | badRequest (message : String)
  | notFound (message : String)
  | unauthorized (message : String)
  | applied (message : String) (application : Application)
  | failed (message : String)
  | serverError
deriving DecidableEq, Repr

/-- What `service.applyToJob` reported back to the handler. -/
structure AdapterApplyResult where
  success : Bool
  message : Option String
deriving DecidableEq, Repr

/-- Tail of the `job-platform/apply` handler after the user row and its
per-platform credentials field have been resolved: credentials presence
check, listing lookup, factory lookup and capability check, credential
validation, adapter invocation, then the recording step. -/
def applyWithCreds (s : Store) (userId : Nat) (platform : String) (jobId now : Nat)
    (credentials : Option PlatformCredentials) (adapterResult : AdapterApplyResult)
    (failMarkApplied failCreateApplication failStats : Bool) : ApplyResponse × Store :=
  match credentials with
  | none =>
    (.badRequest ("No " ++ platform ++ " credentials found. Please add your credentials in Settings."), s)
  | some c =>
    match s.getJobListing jobId with
    | none => (.notFound "Job listing not found", s)
    | some jobListing =>
      match getService defaultRegistry platform with
      | none =>
        (.badRequest ("Job application is not supported for " ++ platform ++ " or the platform is not supported"), s)
      | some service =>
        if ¬ service.hasApplyCapability then
          (.badRequest ("Job application is not supported for " ++ platform ++ " or the platform is not supported"), s)
        else if ¬ service.hasValidCredentials c now then
          (.unauthorized ("Invalid or expired " ++ platform ++ " credentials. Please update your credentials in Settings."), s)
        else
          if adapterResult.success then
            match recordApply s userId jobId jobListing now
                failMarkApplied failCreateApplication failStats with
            | .ok app s2 =>
              (.applied (strOr adapterResult.message "Application submitted successfully") app, s2)
            | .error s2 => (.serverError, s2)
          else
            (.failed (strOr adapterResult.message "Failed to submit application"), s)

/-- The `job-platform/apply` handler: required-fields truthiness check
(`!userId || !platform || !jobId`), user lookup, per-platform credentials
selection (unsupported platform otherwise), then `applyWithCreds`. -/
def applyHandler (s : Store) (userId : Nat) (platform : String) (jobId now : Nat)
    (adapterResult : AdapterApplyResult)
    (failMarkApplied failCreateApplication failStats : Bool) : ApplyResponse × Store :=
  if userId = 0 ∨ platform = "" ∨ jobId = 0 then (.badRequest "Missing required fields", s)
  else
    match s.getUser userId with
    | none => (.notFound "User not found", s)
    | some user =>
      if toLowerStr platform = "linkedin" then
        applyWithCreds s userId platform jobId now (user.linkedinCredentials.map .linkedin)
          adapterResult failMarkApplied failCreateApplication failStats
      else if toLowerStr platform = "indeed" then
        applyWithCreds s userId platform jobId now (user.indeedCredentials.map .indeed)
          adapterResult failMarkApplied failCreateApplication failStats
      else (.badRequest "Unsupported platform", s)

/-! Concrete fixtures used to evaluate the development on closed inputs. -/

/-- A search query with every optional field absent. -/
def emptySearchQuery : SearchParams :=
  { keywords := none, locations := none, remote := false, excludeKeywords := none,
    experience := none, page := none, limit := none, userId := 1 }

/-- An Indeed payload with every field absent. -/
def emptyIndeedPayload : IndeedJobPayload :=
  { jobkey := none, jobtitle := none, company := none, formattedLocation := none,
    city := none, snippet := none, formattedRelativeTime := none, url := none,
    remote := none, date := none }

/-- A LinkedIn payload with every field absent. -/
def emptyLinkedInPayload : LinkedInJobPayload :=
  { id := none, title := none, company := none, locationName := none, location := none,
    description := none, salary := none, applyUrl := none, url := none,
    workplaceType := none, postedAt := none }

/-- A persisted listing ingested from Indeed with external id "X". -/
def indeedRowX : JobListing :=
  { id := 5, userId := 1, source := "Indeed", externalId := "X",
    title := "Dev", company := "Acme", location := none, description := none,
    salary := none, url := "https://www.indeed.com/viewjob?jk=X", isRemote := none,
    postedAt := none, savedAt := 0, applied := false, hidden := false,
    details := RawDetails.indeed emptyIndeedPayload }

/-- A store holding exactly the Indeed row with external id "X". -/
def storeWithIndeedX : Store :=
  { users := [], jobListings := [indeedRowX], applications := [], stats := [],
    nextListingId := 6, nextApplicationId := 1 }

/-- A freshly fetched LinkedIn job that reuses external id "X". -/
def linkedinJobX : JobListing :=
  { id := 0, userId := 1, source := "LinkedIn", externalId := "X",
    title := "Dev II", company := "Globex", location := none, description := none,
    salary := none, url := "https://www.linkedin.com/jobs/view/X", isRemote := none,
    postedAt := none, savedAt := 0, applied := false, hidden := false,
    details := RawDetails.linkedin emptyLinkedInPayload }

/-- A persisted listing with external id "Y" already marked applied. -/
def appliedRowY : JobListing :=
  { indeedRowX with id := 7, externalId := "Y", applied := true }

/-- A store holding exactly the applied listing with external id "Y". -/
def storeWithAppliedY : Store :=
  { users := [], jobListings := [appliedRowY], applications := [], stats := [],
    nextListingId := 8, nextApplicationId := 1 }

/-- A fresh fetch of the same external job "Y" (platform state: not applied). -/
def freshJobY : JobListing :=
  { indeedRowX with id := 0, externalId := "Y", applied := false }

/-- The user of the apply-workflow fixtures, holding Indeed credentials. -/
def applyUser : User :=
  { id := 1, linkedinCredentials := none,
    indeedCredentials := some { publisherId := "pub", apiKey := "key", jobseekerId := none } }

/-- The listing targeted by the apply-workflow fixtures. -/
def applyListing : JobListing :=
  { indeedRowX with id := 1 }

/-- Store for the apply-workflow fixtures: one user, one listing, one stats row. -/
def applyStore : Store :=
  { users := [applyUser], jobListings := [applyListing], applications := [],
    stats := [{ id := 1, userId := 1, totalApplications := 0, interviewRate := 0,
                avgResponseTime := 0, aiGeneratedDocs := 0 }],
    nextListingId := 2, nextApplicationId := 1 }

/-- Pagination-fixture search query: page 1, limit 10. -/
def pageQuery : SearchParams :=
  { emptySearchQuery with page := some 1, limit := some 10 }

/-- Pagination-fixture Indeed response: one item, platform total 25. -/
def indeedResp25 : IndeedSearchResponse :=
  { results := some [emptyIndeedPayload], totalResults := some 25 }

/-- Pagination-fixture LinkedIn response: one item, a "next" paging link. -/
def linkedinRespNext : LinkedInSearchResponse :=
  { elements := some [emptyLinkedInPayload],
    paging := some { total := some 25, links := some [{ rel := some "next" }] } }

/-- An Indeed payload carrying its platform-native id but nothing else. -/
def indeedPayloadK : IndeedJobPayload :=
  { emptyIndeedPayload with jobkey := some "abc" }

/-- A LinkedIn payload carrying its platform-native id but nothing else. -/
def linkedinPayloadK : LinkedInJobPayload :=
  { emptyLinkedInPayload with id := some "123" }

/-! Theorems settling the claims. -/

/-- Helper: `find?` over an append finds whatever the left part finds. -/
theorem find?_append_of_some {α : Type} (p : α → Bool) {l1 : List α} (l2 : List α) {a : α}
    (h : l1.find? p = some a) : (l1 ++ l2).find? p = some a := by
  rw [List.find?_append, h]
  rfl

/-- Helper: `natOr (some n) 0 = n`. -/
theorem natOr_some_zero (n : Nat) : natOr (some n) 0 = n := by
  simp only [natOr]
  split <;> omega

/-- Helper: `natOr (some n) d = n` for positive `n`. -/
theorem natOr_some_pos (n d : Nat) (h : 0 < n) : natOr (some n) d = n := by
  simp only [natOr]
  split <;> omega

/-- Helper: the stats lookup/increment step of the recording sequence never
touches the applications or jobListings tables. -/
theorem statsStep_preserves (s2 : Store) (app : Application) (userId : Nat) :
    ((match s2.getUserStats userId with
      | some st => RecordOutcome.ok app (s2.updateUserStats st.id (st.totalApplications + 1))
      | none => RecordOutcome.ok app s2) : RecordOutcome).store.applications =
        s2.applications ∧
    ((match s2.getUserStats userId with
      | some st => RecordOutcome.ok app (s2.updateUserStats st.id (st.totalApplications + 1))
      | none => RecordOutcome.ok app s2) : RecordOutcome).store.jobListings =
        s2.jobListings := by
  cases s2.getUserStats userId <;> exact ⟨rfl, rfl⟩

/-- Claim C9 (confirmed): registry lookup lower-cases the requested platform
identifier, so any two identifiers with the same lower-casing resolve to the
same adapter, and an identifier bound to no registered key yields `none`
rather than an error. -/
theorem registry_lookup_case_insensitive_absent (r : Registry) (s1 s2 p : String)
    (hcase : toLowerStr s1 = toLowerStr s2)
    (habs : ∀ kv ∈ r.services, kv.1 ≠ toLowerStr p) :
    getService r s1 = getService r s2 ∧ getService r p = none := by
  constructor
  · unfold getService
    rw [hcase]
  · unfold getService
    have hnone : r.services.find? (fun kv => kv.1 == toLowerStr p) = none := by
      rw [List.find?_eq_none]
      intro kv hkv
      simpa using habs kv hkv
    rw [hnone]
    rfl

/-- Witness for C9 on the pre-populated factory registry. -/
theorem registry_lookup_case_insensitive_absent_witness :
    getService defaultRegistry "LinkedIn" = getService defaultRegistry "linkedin" ∧
    getService defaultRegistry "glassdoor" = none :=
  registry_lookup_case_insensitive_absent defaultRegistry "LinkedIn" "linkedin" "glassdoor"
    (by decide) (by decide)

/-- Claim C7 counterexample: a well-formed LinkedIn credential whose expiry
timestamp 0 lies strictly in the past (current time 1000) is nevertheless
accepted, because the JS guard `credentials.expiresAt && ...` treats the
number 0 as falsy.  The claim requires `false` here. -/
theorem linkedin_zero_expiry_counterexample :
    (0 : Nat) < 1000 ∧
    linkedinHasValidCredentials
      (some { accessToken := "token", refreshToken := none, expiresAt := some 0 }) 1000 = true := by
  decide

/-- Claim C7 (corrected): both validity predicates are pure total checks that
return false on missing credentials and on absent required fields; the
LinkedIn predicate returns false for a *nonzero* expiry timestamp strictly in
the past (a zero timestamp is falsy and skips the expiry guard), and both
return true for well-formed, non-expiring credentials. -/
theorem credentials_validity_spec (now : Nat) (lc : LinkedInCredentials)
    (ic : IndeedCredentials) (e : Nat) :
    linkedinHasValidCredentials none now = false ∧
    indeedHasValidCredentials none = false ∧
    (lc.accessToken = "" → linkedinHasValidCredentials (some lc) now = false) ∧
    (ic.publisherId = "" ∨ ic.apiKey = "" → indeedHasValidCredentials (some ic) = false) ∧
    (lc.expiresAt = some e → e ≠ 0 → e < now →
      linkedinHasValidCredentials (some lc) now = false) ∧
    (lc.accessToken ≠ "" → lc.expiresAt = none →
      linkedinHasValidCredentials (some lc) now = true) ∧
    (ic.publisherId ≠ "" → ic.apiKey ≠ "" → indeedHasValidCredentials (some ic) = true) := by
  refine ⟨rfl, rfl, ?_, ?_, ?_, ?_, ?_⟩
  · intro h
    simp [linkedinHasValidCredentials, h]
  · intro h
    rcases h with h | h <;> simp [indeedHasValidCredentials, h]
  · intro he h0 hlt
    by_cases ha : lc.accessToken = "" <;>
      simp [linkedinHasValidCredentials, ha, he, h0, hlt]
  · intro h1 h2
    simp [linkedinHasValidCredentials, h1, h2]
  · intro h1 h2
    simp [indeedHasValidCredentials, h1, h2]

/-- Witness for C7: the amended expiry, the non-expiring LinkedIn case and
the well-formed Indeed case, at concrete credentials. -/
theorem credentials_validity_spec_witness :
    linkedinHasValidCredentials
      (some { accessToken := "token", refreshToken := none, expiresAt := some 5 }) 1000 = false ∧
    linkedinHasValidCredentials
      (some { accessToken := "token", refreshToken := none, expiresAt := none }) 1000 = true ∧
    indeedHasValidCredentials
      (some { publisherId := "pub", apiKey := "key", jobseekerId := none }) = true :=
  ⟨(credentials_validity_spec 1000
      { accessToken := "token", refreshToken := none, expiresAt := some 5 }
      { publisherId := "pub", apiKey := "key", jobseekerId := none } 5).2.2.2.2.1
      rfl (by decide) (by decide),
   (credentials_validity_spec 1000
      { accessToken := "token", refreshToken := none, expiresAt := none }
      { publisherId := "pub", apiKey := "key", jobseekerId := none } 0).2.2.2.2.2.1
      (by decide) rfl,
   (credentials_validity_spec 1000
      { accessToken := "token", refreshToken := none, expiresAt := none }
      { publisherId := "pub", apiKey := "key", jobseekerId := none } 0).2.2.2.2.2.2
      (by decide) (by decide)⟩

/-- Claim C4 (confirmed): on any underlying failure — invalid credentials
(the in-body throw) or a thrown axios call (network/auth/malformed response)
— both adapters' searchJobs return the empty result with `hasMore = false`
and `total = 0` instead of raising. -/
theorem searchJobs_failure_empty
    (ic : Option IndeedCredentials) (lc : Option LinkedInCredentials)
    (params : SearchParams) (now : Nat)
    (ir : HttpResult IndeedSearchResponse) (lr : HttpResult LinkedInSearchResponse)
    (hi : indeedHasValidCredentials ic = false ∨ ir = HttpResult.error)
    (hl : linkedinHasValidCredentials lc now = false ∨ lr = HttpResult.error) :
    indeedSearchJobs ic params ir now = { jobs := [], hasMore := false, total := some 0 } ∧
    linkedinSearchJobs lc params lr now = { jobs := [], hasMore := false, total := some 0 } := by
  constructor
  · rcases hi with h | h
    · simp [indeedSearchJobs, h]
    · subst h
      by_cases hv : indeedHasValidCredentials ic <;> simp [indeedSearchJobs, hv]
  · rcases hl with h | h
    · simp [linkedinSearchJobs, h]
    · subst h
      by_cases hv : linkedinHasValidCredentials lc now <;> simp [linkedinSearchJobs, hv]

/-- Witness for C4: a network failure with no credentials at all. -/
theorem searchJobs_failure_empty_witness :
    indeedSearchJobs none emptySearchQuery HttpResult.error 0 =
      { jobs := [], hasMore := false, total := some 0 } ∧
    linkedinSearchJobs none emptySearchQuery HttpResult.error 0 =
      { jobs := [], hasMore := false, total := some 0 } :=
  searchJobs_failure_empty none none emptySearchQuery 0 HttpResult.error HttpResult.error
    (Or.inr rfl) (Or.inr rfl)

/-- Claim C10 (confirmed): both adapters' getJobDetails return `none` on any
underlying failure — invalid credentials or a thrown axios call — and the
Indeed adapter also returns `none` when the platform reports no results, so
a `none` result does not distinguish platform not-found from upstream
failure. -/
theorem getJobDetails_failure_absent
    (ic : Option IndeedCredentials) (lc : Option LinkedInCredentials)
    (userId now : Nat) (externalId : String)
    (ir : HttpResult IndeedSearchResponse) (lr : HttpResult LinkedInJobPayload)
    (hi : indeedHasValidCredentials ic = false ∨ ir = HttpResult.error)
    (hl : linkedinHasValidCredentials lc now = false ∨ lr = HttpResult.error) :
    indeedGetJobDetails ic userId externalId ir now = none ∧
    linkedinGetJobDetails lc userId externalId lr now = none ∧
    (∀ (ic2 : Option IndeedCredentials) (resp : IndeedSearchResponse),
      resp.results = none ∨ resp.results = some [] →
      indeedGetJobDetails ic2 userId externalId (HttpResult.ok resp) now = none) := by
  refine ⟨?_, ?_, ?_⟩
  · rcases hi with h | h
    · simp [indeedGetJobDetails, h]
    · subst h
      by_cases hv : indeedHasValidCredentials ic <;> simp [indeedGetJobDetails, hv]
  · rcases hl with h | h
    · simp [linkedinGetJobDetails, h]
    · subst h
      by_cases hv : linkedinHasValidCredentials lc now <;> simp [linkedinGetJobDetails, hv]
  · intro ic2 resp hresp
    by_cases hv : indeedHasValidCredentials ic2
    · rcases hresp with h | h <;> simp [indeedGetJobDetails, hv, h]
    · simp [indeedGetJobDetails, hv]

/-- Witness for C10: invalid (missing) credentials with an error response,
and a not-found response, all yielding `none`. -/
theorem getJobDetails_failure_absent_witness :
    indeedGetJobDetails none 1 "X" HttpResult.error 0 = none ∧
    linkedinGetJobDetails none 1 "X" HttpResult.error 0 = none ∧
    indeedGetJobDetails
      (some { publisherId := "pub", apiKey := "key", jobseekerId := none }) 1 "X"
      (HttpResult.ok { results := some [], totalResults := some 0 }) 0 = none := by
  have h := getJobDetails_failure_absent none none 1 0 "X" HttpResult.error HttpResult.error
    (Or.inl rfl) (Or.inl rfl)
  exact ⟨h.1, h.2.1,
    h.2.2 (some { publisherId := "pub", apiKey := "key", jobseekerId := none })
      { results := some [], totalResults := some 0 } (Or.inr rfl)⟩

/-- Claim C5 counterexample: for an Indeed payload carrying neither a
canonical URL nor a platform-native jobkey, the synthesized URL interpolates
the absent jobkey as the literal "undefined", while the listing's externalId
falls back to a timestamp-based placeholder — so the URL is NOT the
platform's URL template applied to the listing's externalId, as the claim
requires for every payload without a canonical URL. -/
theorem normalizer_url_counterexample :
    emptyIndeedPayload.url = none ∧
    (mapIndeedJobToSchema emptyIndeedPayload 1 0).externalId = "indeed-0" ∧
    (mapIndeedJobToSchema emptyIndeedPayload 1 0).url =
      "https://www.indeed.com/viewjob?jk=undefined" ∧
    (mapIndeedJobToSchema emptyIndeedPayload 1 0).url ≠
      "https://www.indeed.com/viewjob?jk=" ++
        (mapIndeedJobToSchema emptyIndeedPayload 1 0).externalId := by
  decide

/-- Claim C5 (corrected): both normalizers default a missing title to
"Untitled Position" and a missing company to "Unknown Company", and retain
the raw payload verbatim in `details`; the synthesized URL is built from the
payload's platform-native id field (not the listing's externalId), so it
equals the platform URL template applied to the externalId exactly when the
payload carries a (non-empty) native id and no canonical URL. -/
theorem normalizer_defaults (p : IndeedJobPayload) (q : LinkedInJobPayload) (userId now : Nat) :
    (p.jobtitle = none → (mapIndeedJobToSchema p userId now).title = "Untitled Position") ∧
    (p.company = none → (mapIndeedJobToSchema p userId now).company = "Unknown Company") ∧
    (∀ k, p.jobkey = some k → k ≠ "" → p.url = none →
      (mapIndeedJobToSchema p userId now).url =
        "https://www.indeed.com/viewjob?jk=" ++ (mapIndeedJobToSchema p userId now).externalId) ∧
    (mapIndeedJobToSchema p userId now).details = RawDetails.indeed p ∧
    (q.title = none → (mapLinkedInJobToSchema q userId now).title = "Untitled Position") ∧
    (q.company = none → (mapLinkedInJobToSchema q userId now).company = "Unknown Company") ∧
    (∀ k, q.id = some k → k ≠ "" → q.applyUrl = none → q.url = none →
      (mapLinkedInJobToSchema q userId now).url =
        "https://www.linkedin.com/jobs/view/" ++ (mapLinkedInJobToSchema q userId now).externalId) ∧
    (mapLinkedInJobToSchema q userId now).details = RawDetails.linkedin q := by
  refine ⟨?_, ?_, ?_, rfl, ?_, ?_, ?_, rfl⟩
  · intro h
    simp [mapIndeedJobToSchema, strOr, h]
  · intro h
    simp [mapIndeedJobToSchema, strOr, h]
  · intro k hk hk0 hu
    simp [mapIndeedJobToSchema, strOr, interpStr, hk, hk0, hu]
  · intro h
    simp [mapLinkedInJobToSchema, strOr, h]
  · intro h
    simp [mapLinkedInJobToSchema, strOr, h]
  · intro k hk hk0 ha hu
    simp [mapLinkedInJobToSchema, strOr, interpStr, hk, hk0, ha, hu]

/-- Witness for C5 at payloads carrying only their platform-native id. -/
theorem normalizer_defaults_witness :
    (mapIndeedJobToSchema indeedPayloadK 1 0).title = "Untitled Position" ∧
    (mapIndeedJobToSchema indeedPayloadK 1 0).company = "Unknown Company" ∧
    (mapIndeedJobToSchema indeedPayloadK 1 0).url =
      "https://www.indeed.com/viewjob?jk=" ++ (mapIndeedJobToSchema indeedPayloadK 1 0).externalId ∧
    (mapIndeedJobToSchema indeedPayloadK 1 0).details = RawDetails.indeed indeedPayloadK ∧
    (mapLinkedInJobToSchema linkedinPayloadK 1 0).title = "Untitled Position" ∧
    (mapLinkedInJobToSchema linkedinPayloadK 1 0).company = "Unknown Company" ∧
    (mapLinkedInJobToSchema linkedinPayloadK 1 0).url =
      "https://www.linkedin.com/jobs/view/" ++
        (mapLinkedInJobToSchema linkedinPayloadK 1 0).externalId ∧
    (mapLinkedInJobToSchema linkedinPayloadK 1 0).details = RawDetails.linkedin linkedinPayloadK := by
  have h := normalizer_defaults indeedPayloadK linkedinPayloadK 1 0
  exact ⟨h.1 rfl, h.2.1 rfl, h.2.2.1 "abc" rfl (by decide) rfl, h.2.2.2.1,
    h.2.2.2.2.1 rfl, h.2.2.2.2.2.1 rfl, h.2.2.2.2.2.2.1 "123" rfl (by decide) rfl rfl,
    h.2.2.2.2.2.2.2⟩

/-- Claim C1 counterexample: the store holds only an Indeed listing with
external id "X"; re-ingesting a LinkedIn job with the same external id — a
distinct (user, source, externalId) triple — creates no row and returns the
Indeed record, so listings from different platforms sharing an externalId
are NOT treated as distinct. -/
theorem dedup_conflates_cross_platform_externalId :
    linkedinJobX.source = "LinkedIn" ∧
    (∀ l ∈ storeWithIndeedX.jobListings, l.source = "Indeed") ∧
    (dedupSaveJobs storeWithIndeedX 1 [linkedinJobX] 0).2 = storeWithIndeedX ∧
    (dedupSaveJobs storeWithIndeedX 1 [linkedinJobX] 0).1 = [indeedRowX] ∧
    indeedRowX.source ≠ linkedinJobX.source := by
  decide

/-- Claim C1 (corrected): the dedup key is the pair (owning user, externalId)
— `source` is not part of the lookup.  Re-ingesting any job whose
(user, externalId) pair is already persisted creates no row and yields the
already-persisted record, even when that job comes from a different
platform. -/
theorem dedup_key_is_user_externalId (s : Store) (userId now : Nat) (job e : JobListing)
    (h : s.getJobListingByExternalId userId job.externalId = some e) :
    dedupSaveJobs s userId [job] now = ([e], s) := by
  simp [dedupSaveJobs, h]

/-- Witness for C1: the cross-platform instance. -/
theorem dedup_key_is_user_externalId_witness :
    dedupSaveJobs storeWithIndeedX 1 [linkedinJobX] 0 = ([indeedRowX], storeWithIndeedX) :=
  dedup_key_is_user_externalId storeWithIndeedX 1 0 linkedinJobX indeedRowX (by decide)

/-- Claim C3 (confirmed): the dedup loop only ever appends newly created rows
— every previously persisted row survives verbatim in the final store (so
`applied` and `hidden` are never overwritten by fresh platform data, and an
`applied = true` row is never reset) — and every adapter job whose
(user, externalId) key is already persisted contributes the existing
persisted row, not the freshly fetched one, to the result set. -/
theorem search_dedup_preserves_state (s : Store) (userId now : Nat) (jobs : List JobListing) :
    (∃ extra, (dedupSaveJobs s userId jobs now).2.jobListings = s.jobListings ++ extra) ∧
    (∀ job ∈ jobs, ∀ e, s.getJobListingByExternalId userId job.externalId = some e →
      e ∈ (dedupSaveJobs s userId jobs now).1) := by
  induction jobs generalizing s with
  | nil =>
    exact ⟨⟨[], by simp [dedupSaveJobs]⟩, by simp⟩
  | cons job rest ih =>
    cases hfind : s.getJobListingByExternalId userId job.externalId with
    | some existingJob =>
      have hd : dedupSaveJobs s userId (job :: rest) now =
          (existingJob :: (dedupSaveJobs s userId rest now).1,
           (dedupSaveJobs s userId rest now).2) := by
        simp [dedupSaveJobs, hfind]
      constructor
      · obtain ⟨extra, hex⟩ := (ih s).1
        exact ⟨extra, by rw [hd]; exact hex⟩
      · intro j hj e he
        rw [hd]
        rcases List.mem_cons.mp hj with rfl | hj2
        · rw [hfind] at he
          cases he
          exact List.mem_cons_self _ _
        · exact List.mem_cons_of_mem _ ((ih s).2 j hj2 e he)
    | none =>
      have hd : dedupSaveJobs s userId (job :: rest) now =
          ((s.createJobListing job now).1 ::
             (dedupSaveJobs (s.createJobListing job now).2 userId rest now).1,
           (dedupSaveJobs (s.createJobListing job now).2 userId rest now).2) := by
        simp [dedupSaveJobs, hfind]
      have hs1 : (s.createJobListing job now).2.jobListings =
          s.jobListings ++ [(s.createJobListing job now).1] := by
        simp [Store.createJobListing]
      constructor
      · obtain ⟨extra, hex⟩ := (ih (s.createJobListing job now).2).1
        refine ⟨(s.createJobListing job now).1 :: extra, ?_⟩
        rw [hd]
        simpa [hs1, List.append_assoc] using hex
      · intro j hj e he
        rw [hd]
        rcases List.mem_cons.mp hj with rfl | hj2
        · rw [hfind] at he
          cases he
        · refine List.mem_cons_of_mem _ ((ih (s.createJobListing job now).2).2 j hj2 e ?_)
          unfold Store.getJobListingByExternalId at he ⊢
          rw [hs1]
          exact find?_append_of_some _ _ he

/-- Witness for C3: a persisted row already marked applied survives a
re-ingesting search untouched and is the row returned for the matching job. -/
theorem search_dedup_preserves_state_witness :
    (∃ extra, (dedupSaveJobs storeWithAppliedY 1 [freshJobY] 0).2.jobListings =
        storeWithAppliedY.jobListings ++ extra) ∧
    appliedRowY ∈ (dedupSaveJobs storeWithAppliedY 1 [freshJobY] 0).1 :=
  ⟨(search_dedup_preserves_state storeWithAppliedY 1 0 [freshJobY]).1,
   (search_dedup_preserves_state storeWithAppliedY 1 0 [freshJobY]).2 freshJobY
     (List.mem_singleton.mpr rfl) appliedRowY (by decide)⟩

/-- Claim C2 counterexample: the three recording writes carry no individual
guards — when the first write (flip the applied flag) throws, the handler's
single outer catch fires with the store untouched: `createApplication` and
the stats increment are never attempted, no Application record exists and no
flag is flipped, contradicting the claim that the other two writes are still
attempted and exactly one Application record is produced. -/
theorem recording_aborts_after_first_failure :
    recordApply applyStore 1 1 applyListing 5 true false false =
      RecordOutcome.error applyStore ∧
    (recordApply applyStore 1 1 applyListing 5 true false false).store.applications = [] ∧
    ((recordApply applyStore 1 1 applyListing 5 true false false).store.jobListings.map
      (fun l => l.applied)) = [false] := by
  decide

/-- Claim C2 (corrected): the recording writes run strictly in sequence with
no individual guards, so a failure of an earlier write aborts the later ones;
only the stats increment comes last, hence when the flag write and the
application write succeed the final store holds exactly one new Application
(status "applied", appliedAt now, derived from the listing's fields) and has
exactly the targeted listing's applied flag set, regardless of whether the
stats-increment step succeeds or fails. -/
theorem recording_resilient_to_stats_failure
    (s : Store) (userId jobId now : Nat) (jobListing : JobListing) (failStats : Bool) :
    ∃ app : Application,
      (recordApply s userId jobId jobListing now false false failStats).store.applications
        = s.applications ++ [app] ∧
      app.status = "applied" ∧ app.appliedAt = now ∧
      app.role = jobListing.title ∧ app.company = jobListing.company ∧
      (recordApply s userId jobId jobListing now false false failStats).store.jobListings
        = s.jobListings.map (fun l => if l.id == jobId then { l with applied := true } else l) := by
  refine ⟨{ id := s.nextApplicationId, userId := userId, role := jobListing.title,
            company := jobListing.company, description := jobListing.description,
            location := jobListing.location, status := "applied", link := jobListing.url,
            appliedAt := now, createdAt := now }, ?_, rfl, rfl, rfl, rfl, ?_⟩
  · cases failStats with
    | true => rfl
    | false => exact (statsStep_preserves _ _ userId).1
  · cases failStats with
    | true => rfl
    | false => exact (statsStep_preserves _ _ userId).2

/-- Claim C6 (confirmed): with the user, their stored Indeed credentials and
the target listing all present, an apply request for platform "indeed"
terminates at the capability check — the Indeed adapter defines no applyToJob
— with the handler's unsupported message, before the adapter call and before
any recording write: the store comes back unchanged, so no Application row is
created, no applied flag is flipped and no stats counter is incremented. -/
theorem apply_indeed_unsupported_no_writes
    (s : Store) (userId jobId now : Nat) (user : User) (c : IndeedCredentials)
    (jobListing : JobListing) (adapterResult : AdapterApplyResult) (f1 f2 f3 : Bool)
    (hu : userId ≠ 0) (hj : jobId ≠ 0)
    (hget : s.getUser userId = some user)
    (hc : user.indeedCredentials = some c)
    (hl : s.getJobListing jobId = some jobListing) :
    applyHandler s userId "indeed" jobId now adapterResult f1 f2 f3 =
      (ApplyResponse.badRequest
        "Job application is not supported for indeed or the platform is not supported", s) := by
  unfold applyHandler
  rw [if_neg (by simp [hu, hj])]
  simp only [hget]
  rw [show toLowerStr "indeed" = "indeed" from rfl]
  rw [if_neg (by decide), if_pos rfl]
  unfold applyWithCreds
  simp only [hc, Option.map_some']
  simp only [hl]
  rw [show getService defaultRegistry "indeed" = some Adapter.indeed from by decide]
  simp [Adapter.hasApplyCapability]

/-- Witness for C6 on the concrete apply fixtures. -/
theorem apply_indeed_unsupported_no_writes_witness :
    applyHandler applyStore 1 "indeed" 1 5 { success := true, message := none }
      false false false =
      (ApplyResponse.badRequest
        "Job application is not supported for indeed or the platform is not supported",
       applyStore) :=
  apply_indeed_unsupported_no_writes applyStore 1 1 5 applyUser
    { publisherId := "pub", apiKey := "key", jobseekerId := none } applyListing
    { success := true, message := none } false false false
    (by decide) (by decide) (by decide) (by decide) (by decide)

/-- Claim C8 (confirmed): both adapters send the platform's native start
parameter as page × limit together with a per-page count (`limit` for
Indeed, `count` for LinkedIn), and derive hasMore from the platform's own
continuation signal: Indeed compares start + returned-count against the
platform-reported total, LinkedIn tests the response's paging links for a
"next" link. -/
theorem pagination_mapping
    (ic : IndeedCredentials) (lc : LinkedInCredentials) (params : SearchParams)
    (page limit now total : Nat)
    (iresp : IndeedSearchResponse) (lresp : LinkedInSearchResponse)
    (paging : LinkedInPaging) (links : List LinkedInPagingLink)
    (hp : params.page = some page) (hli : params.limit = some limit) (hlpos : 0 < limit)
    (hiv : indeedHasValidCredentials (some ic) = true)
    (hlv : linkedinHasValidCredentials (some lc) now = true)
    (ht : iresp.totalResults = some total) (ht0 : total ≠ 0)
    (hpg : lresp.paging = some paging) (hlinks : paging.links = some links) :
    ("start", toString (page * limit)) ∈ indeedBuildSearchParams ic params ∧
    ("limit", toString limit) ∈ indeedBuildSearchParams ic params ∧
    ("start", toString (page * limit)) ∈ linkedinBuildSearchParams params ∧
    ("count", toString limit) ∈ linkedinBuildSearchParams params ∧
    ((indeedSearchJobs (some ic) params (HttpResult.ok iresp) now).hasMore = true ↔
      page * limit + (iresp.results.getD []).length < total) ∧
    ((linkedinSearchJobs (some lc) params (HttpResult.ok lresp) now).hasMore = true ↔
      ∃ link ∈ links, link.rel = some "next") := by
  have hpage : natOr params.page 0 = page := by rw [hp]; exact natOr_some_zero page
  have hlim : natOr params.limit 20 = limit := by rw [hli]; exact natOr_some_pos limit 20 hlpos
  refine ⟨?_, ?_, ?_, ?_, ?_, ?_⟩
  · simp [indeedBuildSearchParams, hpage, hlim]
  · simp [indeedBuildSearchParams, hpage, hlim]
  · simp [linkedinBuildSearchParams, hpage, hlim]
  · simp [linkedinBuildSearchParams, hpage, hlim]
  · simp only [indeedSearchJobs, hiv, Bool.not_true, if_neg (by simp : ¬ (False : Prop))]
    simp [hpage, hlim, ht, natOr_some_pos total _ (Nat.pos_of_ne_zero ht0),
      List.length_map]
  · simp only [linkedinSearchJobs, hlv]
    simp [linkedinHasMoreOf, hpg, hlinks, List.any_eq_true]

/-- Witness for C8: page 1, limit 10, platform total 25, one returned item,
a "next" paging link. -/
theorem pagination_mapping_witness :
    ("start", toString (1 * 10)) ∈
      indeedBuildSearchParams { publisherId := "pub", apiKey := "key", jobseekerId := none }
        pageQuery ∧
    ("limit", toString 10) ∈
      indeedBuildSearchParams { publisherId := "pub", apiKey := "key", jobseekerId := none }
        pageQuery ∧
    ("start", toString (1 * 10)) ∈ linkedinBuildSearchParams pageQuery ∧
    ("count", toString 10) ∈ linkedinBuildSearchParams pageQuery ∧
    ((indeedSearchJobs (some { publisherId := "pub", apiKey := "key", jobseekerId := none })
        pageQuery (HttpResult.ok indeedResp25) 0).hasMore = true ↔
      1 * 10 + (indeedResp25.results.getD []).length < 25) ∧
    ((linkedinSearchJobs (some { accessToken := "tok", refreshToken := none, expiresAt := none })
        pageQuery (HttpResult.ok linkedinRespNext) 0).hasMore = true ↔
      ∃ link ∈ [({ rel := some "next" } : LinkedInPagingLink)], link.rel = some "next") :=
  pagination_mapping { publisherId := "pub", apiKey := "key", jobseekerId := none }
    { accessToken := "tok", refreshToken := none, expiresAt := none } pageQuery
    1 10 0 25 indeedResp25 linkedinRespNext
    { total := some 25, links := some [{ rel := some "next" }] } [{ rel := some "next" }]
    rfl rfl (by decide) (by decide) (by decide) rfl (by decide) rfl rfl

end CareerCatalyst
